import Mathlib

/-!
Verification development for the Ethyr address risk-analysis engine.

The definitions below are a shallow embedding of the Python backend:
  - `backend/models/risk_detection_pipeline.py` (RiskDetectionPipeline),
  - the aggregation-layer scoring, fetch helpers and block search in
    `backend/blockchain_utils.py`,
  - the request handler in `backend/main.py`.
Python numbers are embedded as exact rationals, Python ints as `Int`
or `Nat`, Python dict results as structures or `Option`.
-/

namespace Ethyr

/-- The feature record built by `fetch_address_data` and consumed by
`RiskDetectionPipeline.analyze_address`.  Field names follow the
`features` dict keys in the source. -/
structure FeatureSet where
  is_contract : Bool
  verified_contract : Bool
  has_mint_privileges : Bool
  mint_event_count : Int
  lp_locked : Bool
  honeypot_result : Bool
  contract_age_days : Int
  deriving Repr, DecidableEq

/-- `self.risk_weights` table of `RiskDetectionPipeline.__init__`. -/
def risk_weights : List (String × ℚ) :=
  [("unverified_contract", 35/100),
   ("mint_privileges", 25/100),
   ("high_mint_count", 20/100),
   ("unlocked_liquidity", 30/100),
   ("honeypot_result", 45/100),
   ("new_contract", 20/100)]

/-- Lookup in a Python dict modelled as an association list. -/
def dictLookup {κ β : Type} [DecidableEq κ] : List (κ × β) → κ → Option β
  | [], _ => none
  | (k, v) :: t, key => if key = k then some v else dictLookup t key

/-- Dict access `self.risk_weights[k]` (all uses in the source access
keys present in the table; absent keys would raise, modelled as 0). -/
def weightOf (k : String) : ℚ := ((dictLookup risk_weights k).getD 0)

/-- `self.risk_combinations` table of `RiskDetectionPipeline.__init__`:
pair keys exactly as written in the source, values are the multipliers. -/
def risk_combinations : List ((String × String) × ℚ) :=
  [(("unverified_contract", "mint_privileges"), 12/10),
   (("unlocked_liquidity", "honeypot_result"), 13/10),
   (("new_contract", "unverified_contract"), 115/100),
   (("mint_privileges", "high_mint_count"), 125/100)]

/-- `tuple(sorted([factor1, factor2]))` on two strings: Python sorts the
two-element list lexicographically (stable, compares with `<`). -/
def sortedPair (a b : String) : String × String :=
  if b < a then (b, a) else (a, b)

/-- Factor collection of `analyze_address` (risk_detection_pipeline.py
lines 54-67): the sequence of `risk_factors.append` calls, one `if`
per feature condition, in source order.  Note the source appends the
name `honeypot_detected` while reading the weight under the key
`honeypot_result`. -/
def riskFactorsOf (f : FeatureSet) : List (String × ℚ) :=
  (if f.verified_contract = false then
      [("unverified_contract", weightOf "unverified_contract")] else []) ++
  (if f.has_mint_privileges then
      [("mint_privileges", weightOf "mint_privileges")] else []) ++
  (if f.mint_event_count > 10 then
      [("high_mint_count", weightOf "high_mint_count")] else []) ++
  (if f.lp_locked = false then
      [("unlocked_liquidity", weightOf "unlocked_liquidity")] else []) ++
  (if f.honeypot_result then
      [("honeypot_detected", weightOf "honeypot_result")] else []) ++
  (if f.contract_age_days < 7 then
      [("new_contract", weightOf "new_contract")] else [])

/-- First pass of `analyze_address`: `for factor, weight in risk_factors:
risk_score += weight`, starting from 0. -/
def baseScore (factors : List (String × ℚ)) : ℚ :=
  factors.foldl (fun s p => s + p.2) 0

/-- Inner loop of the second pass: pair the fixed `factor1` with every
later factor `factor2`; when the sorted pair is a key of
`risk_combinations` and not yet applied, multiply the score by the
multiplier and record the pair. -/
def comboInner (factor1 : String) (rest : List (String × ℚ))
    (score : ℚ) (applied : List (String × String)) :
    ℚ × List (String × String) :=
  match rest with
  | [] => (score, applied)
  | (factor2, _) :: rs =>
    let combo := sortedPair factor1 factor2
    match dictLookup risk_combinations combo with
    | some mult =>
      if combo ∈ applied then
        comboInner factor1 rs score applied
      else
        comboInner factor1 rs (score * mult) (combo :: applied)
    | none => comboInner factor1 rs score applied

/-- Outer loop of the second pass of `analyze_address` (lines 78-83):
enumerate ordered index pairs i < j of the factor list. -/
def comboPass (factors : List (String × ℚ))
    (score : ℚ) (applied : List (String × String)) :
    ℚ × List (String × String) :=
  match factors with
  | [] => (score, applied)
  | (factor1, _) :: rest =>
    let sa := comboInner factor1 rest score applied
    comboPass rest sa.1 sa.2

/-- `risk_factors` as used by `analyze_address`: collected for contract
addresses, the empty list otherwise (lines 54 and 89). -/
def analyzeRiskFactors (f : FeatureSet) : List (String × ℚ) :=
  if f.is_contract then riskFactorsOf f else []

/-- The unordered combination pairs actually applied by the second pass
of `analyze_address` (contents of `applied_combinations`). -/
def appliedCombinations (f : FeatureSet) : List (String × String) :=
  if f.is_contract then (comboPass (riskFactorsOf f) (baseScore (riskFactorsOf f)) []).2
  else []

/-- The risk score of `analyze_address` (lines 54-89): contract
addresses get the combo-multiplied base score clamped by
`min(1.0, risk_score)`; non-contract addresses get 0.0. -/
def analyzeScore (f : FeatureSet) : ℚ :=
  if f.is_contract then
    min 1 (comboPass (riskFactorsOf f) (baseScore (riskFactorsOf f)) []).1
  else 0

/-- `RiskDetectionPipeline._get_risk_tier`. -/
def get_risk_tier (score : ℚ) : String :=
  if score ≤ 3/10 then "Safe"
  else if score ≤ 7/10 then "Moderate Risk"
  else "High Risk"

/-- Round a rational to the nearest integer, ties to even, matching the
rounding used by Python fixed-point float formatting on the exact
values arising here. -/
def roundHalfEven (q : ℚ) : Int :=
  let fl := ⌊q⌋
  let frac := q - fl
  if frac < 1/2 then fl
  else if 1/2 < frac then fl + 1
  else if fl % 2 = 0 then fl else fl + 1

/-- Python two-decimal formatting of a score value. -/
def format2f (q : ℚ) : String :=
  let n := roundHalfEven (q * 100)
  let sign := if n < 0 then "-" else ""
  let m := n.natAbs
  let r := m % 100
  sign ++ toString (m / 100) ++ "." ++ (if r < 10 then "0" else "") ++ toString r

/-- Python zero-decimal formatting of a percentage value. -/
def format0f (q : ℚ) : String :=
  toString (roundHalfEven q)

/-- `risk_explanations` table of `_generate_explanation`. -/
def risk_explanations : List (String × String) :=
  [("unverified_contract", "The contract source code is not verified on Etherscan, making it difficult to audit its functionality."),
   ("mint_privileges", "The contract owner has the ability to mint new tokens, which could lead to token supply manipulation."),
   ("high_mint_count", "There have been multiple token minting events, indicating potential supply inflation."),
   ("unlocked_liquidity", "The liquidity is not locked, allowing for potential rug pulls or token dumps."),
   ("honeypot_detected", "The contract exhibits characteristics of a honeypot, which may prevent token selling."),
   ("new_contract", "This is a newly deployed contract with limited history and community trust.")]

/-- Inner loop of the combination block of `_generate_explanation`
(lines 146-153): pair `factor1` with each later factor, in original
list order; a bullet is emitted for every pair found in
`risk_combinations` (no dedup set in this second enumeration). -/
def comboBulletsInner (factor1 : String) (rest : List (String × ℚ)) : List String :=
  match rest with
  | [] => []
  | (factor2, _) :: rs =>
    (match dictLookup risk_combinations (sortedPair factor1 factor2) with
     | some mult =>
        ["- Combined impact of " ++ factor1 ++ " and " ++ factor2 ++
         " increases overall risk by " ++ format0f ((mult - 1) * 100) ++ "%"]
     | none => []) ++ comboBulletsInner factor1 rs

/-- Outer loop of the combination block of `_generate_explanation`. -/
def comboBullets : List (String × ℚ) → List String
  | [] => []
  | (factor1, _) :: rest => comboBulletsInner factor1 rest ++ comboBullets rest

/-- `RiskDetectionPipeline._generate_explanation`.  Every factor name
produced by `analyze_address` is a key of `risk_explanations`; a
missing key would raise in Python and is modelled by the empty
rationale. -/
def generate_explanation (risk_factors : List (String × ℚ)) (risk_score : ℚ)
    (risk_tier : String) (features_text : String) : List String :=
  (["Analysis Overview: " ++ features_text,
    "Risk Assessment: This address has been classified as " ++ risk_tier ++
      " with a risk score of " ++ format2f risk_score] ++
   (if risk_factors = [] then
      ["No significant risk factors were detected."]
    else
      ["Detected Risk Factors:"] ++
      risk_factors.map (fun p =>
        "- " ++ ((dictLookup risk_explanations p.1).getD "") ++
        " (Impact: " ++ format2f p.2 ++ ")") ++
      (let applied_combos := comboBullets risk_factors
       if applied_combos = [] then []
       else ["\nRisk Factor Combinations:"] ++ applied_combos))) ++
  [if risk_tier = "High Risk" then
    "Recommendation: Exercise extreme caution when interacting with this address. Consider avoiding transactions unless you fully understand the risks."
   else if risk_tier = "Moderate Risk" then
    "Recommendation: Proceed with caution and conduct thorough due diligence before any significant interactions."
   else
    "Recommendation: While no major risks were detected, always follow standard security practices when conducting transactions."]

/-- `RiskDetectionPipeline.analyze_address`: the returned triple
`(risk_score, risk_tier, explanation)`. -/
def analyze_address (f : FeatureSet) (features_text : String) :
    ℚ × String × List String :=
  let risk_score := analyzeScore f
  let risk_tier := get_risk_tier risk_score
  (risk_score, risk_tier,
   generate_explanation (analyzeRiskFactors f) risk_score risk_tier features_text)

/-- The aggregation-layer heuristic score of `fetch_address_data`
(blockchain_utils.py lines 177-212): additive weights, one extra
additive combination term, then `min(risk_score, 0.99)`.  The
unlocked-liquidity term requires the address be classified a token. -/
def aggRiskScore (features : FeatureSet) (is_token : Bool) : ℚ :=
  let s : ℚ := 0
  let s := if features.verified_contract = false then s + 35/100 else s
  let s := if features.lp_locked = false ∧ is_token = true then s + 30/100 else s
  let s := if features.contract_age_days < 30 then s + 20/100 else s
  let s := if features.has_mint_privileges then s + 15/100 else s
  let s := if features.honeypot_result then s + 25/100 else s
  let s := if features.verified_contract = false ∧ features.contract_age_days < 30 then
             s + 15/100 else s
  min s (99/100)

/-! ### Upstream fetch helpers (blockchain_utils.py) -/

/-- One transaction record returned by the indexer (opaque payload). -/
structure TxRecord where
  raw : String
  deriving Repr, DecidableEq

/-- Outcome of one HTTP interaction as seen by a fetch helper: either
the transport raised (timeout, connection error), or a response with a
status code arrived whose body either parses to `β` or is malformed. -/
inductive HttpFetch (β : Type) where
  | timeout
  | resp (status : Int) (body : Except String β)
  deriving Repr

/-- `r` is a transport failure in the sense of the spec: timeout,
non-200 status, or malformed body. -/
def transportFailed {β : Type} : HttpFetch β → Bool
  | .timeout => true
  | .resp status body =>
    status != 200 || (match body with | .error _ => true | .ok _ => false)

/-- Body shape of an Etherscan `txlist` reply. -/
structure TxListBody where
  status : String
  result : List TxRecord
  deriving Repr, DecidableEq

/-- `fetch_transactions` (blockchain_utils.py lines 297-318): the
`try` body returns `data['result']` when the status code is 200 and
`data['status'] == '1'`, and `[]` on every other path; the `except`
clause also returns `[]`. -/
def fetch_transactions (r : HttpFetch TxListBody) : List TxRecord :=
  match r with
  | .timeout => []
  | .resp status body =>
    if status = 200 then
      match body with
      | .error _ => []
      | .ok data => if data.status = "1" then data.result else []
    else []

/-- One record of an Etherscan `getsourcecode` reply. -/
structure SourceRecord where
  SourceCode : String
  ContractName : String
  CompilerVersion : String
  deriving Repr, DecidableEq

/-- Body shape of an Etherscan `getsourcecode` reply. -/
structure ContractSourceBody where
  status : String
  result : List SourceRecord
  deriving Repr, DecidableEq

/-- Return value of `fetch_contract_data`. -/
structure ContractData where
  is_verified : Bool
  contract_name : String
  compiler_version : String
  source_code : String
  deriving Repr, DecidableEq

/-- `fetch_contract_data` (blockchain_utils.py lines 320-343): builds
a record from `data['result'][0]` when status code 200,
`data['status'] == '1'` and the result list is non-empty (truthy);
`None` on every other path, including the `except` clause. -/
def fetch_contract_data (r : HttpFetch ContractSourceBody) : Option ContractData :=
  match r with
  | .timeout => none
  | .resp status body =>
    if status = 200 then
      match body with
      | .error _ => none
      | .ok data =>
        if data.status = "1" then
          match data.result with
          | rec0 :: _ =>
            some ⟨rec0.SourceCode ≠ "", rec0.ContractName,
                  rec0.CompilerVersion, rec0.SourceCode.take 1000⟩
          | [] => none
        else none
    else none

/-! ### Feature construction slice of fetch_address_data -/

/-- Result of `get_contract_age` when truthy. -/
structure AgeInfo where
  age_days : Int
  deriving Repr, DecidableEq

/-- Result of `get_contract_info` when truthy. -/
structure ContractInfo where
  is_verified : Bool
  contract_name : String
  deriving Repr, DecidableEq

/-- Result of `get_token_info` when truthy (`none` models the falsy
empty dict returned when no token metadata is found). -/
structure TokenInfo where
  name : String
  symbol : String
  decimals : Int
  total_supply : Int
  deriving Repr, DecidableEq

/-- Result of `get_mint_activity` when truthy. -/
structure MintInfo where
  has_mint_privileges : Bool
  mint_event_count : Int
  deriving Repr, DecidableEq

/-- Result of `check_liquidity_lock`: the function always returns a
dict carrying the `lp_locked` key. -/
structure LockInfo where
  lp_locked : Bool
  deriving Repr, DecidableEq

/-- Whether `fetch_address_data` runs the liquidity-lock check
(blockchain_utils.py line 146): only when the address was classified
`Token`, which happens exactly when `get_token_info` returned a truthy
dict (line 113/129). -/
def lockCheckPerformed (token_info : Option TokenInfo) : Bool :=
  token_info.isSome

/-- The `features` dict built for a contract address by
`fetch_address_data` (blockchain_utils.py lines 162-174), as a
function of the sub-fetch results.  `mint_info` and `lock_info` are
local variables only bound inside the token branch, so the
`in locals()` guards reduce to the token test; each `.get(key,
default)` on an absent dict is the default. -/
def contractFeatures (contract_age : Option AgeInfo)
    (contract_info : Option ContractInfo) (token_info : Option TokenInfo)
    (mint_info : Option MintInfo) (honeypot : Bool) (lock_result : LockInfo) :
    FeatureSet :=
  let isToken := lockCheckPerformed token_info
  { is_contract := true
    verified_contract :=
      match contract_info with | some ci => ci.is_verified | none => false
    has_mint_privileges :=
      if isToken then
        (match mint_info with | some mi => mi.has_mint_privileges | none => false)
      else false
    mint_event_count :=
      if isToken then
        (match mint_info with | some mi => mi.mint_event_count | none => 0)
      else 0
    lp_locked := if isToken then lock_result.lp_locked else false
    honeypot_result := honeypot
    contract_age_days :=
      match contract_age with | some a => a.age_days | none => 0 }

/-! ### Uniswap V3 effective price (get_token_market_data) -/

/-- Effective price of a concentrated-liquidity pool, from
`get_token_market_data` (blockchain_utils.py lines 979-980):
`price = (sqrtPriceX96 * sqrtPriceX96 * (10 ** (18 - token_decimals)))
/ (2 ** 192)`, with 18 the decimal count of the WETH reference
asset. -/
def v3_effective_price (sqrtPriceX96 : Int) (token_decimals : Int) : ℚ :=
  ((sqrtPriceX96 : ℚ) * (sqrtPriceX96 : ℚ) *
    (10 : ℚ) ^ ((18 : Int) - token_decimals)) / (2 : ℚ) ^ (192 : ℕ)

/-- Modelled from the words of the specification (not from the
source): `price = indicator² × 10^(tokenDecimals - referenceDecimals)
/ 2^192`. -/
def v3_price_spec_formula (indicator : Int)
    (tokenDecimals referenceDecimals : Int) : ℚ :=
  (indicator : ℚ) ^ 2 * (10 : ℚ) ^ (tokenDecimals - referenceDecimals) /
    (2 : ℚ) ^ (192 : ℕ)

/-- The spec formula with the decimal adjustment read the way the
source computes it: exponent `referenceDecimals - tokenDecimals`. -/
def v3_price_corrected_formula (indicator : Int)
    (tokenDecimals referenceDecimals : Int) : ℚ :=
  (indicator : ℚ) ^ 2 * (10 : ℚ) ^ (referenceDecimals - tokenDecimals) /
    (2 : ℚ) ^ (192 : ℕ)

/-! ### Block search (get_block_number_24h_ago) -/

/-- The `while left <= right` loop of `get_block_number_24h_ago`
(blockchain_utils.py lines 829-841), with the block-fetch modelled by
a total timestamp function `ts` (every fetch succeeds).  Python floor
division `// 2` agrees with Lean integer division here since the
divisor is positive.  Returns `left` when the bounds cross. -/
def searchLoop (ts : Int → Int) (target_time : Int) (left right : Int) : Int :=
  if _h : left ≤ right then
    let mid := (left + right) / 2
    let block_time := ts mid
    if |block_time - target_time| < 300 then mid
    else if block_time < target_time then searchLoop ts target_time (mid + 1) right
    else searchLoop ts target_time left (mid - 1)
  else left
termination_by (right + 1 - left).toNat
decreasing_by
  · omega
  · omega

/-- `get_block_number_24h_ago` on a chain whose block `n` has
timestamp `ts n` and whose latest block is `current_block`: target
time is the latest timestamp minus 86400, searched in
`[max(0, current_block - 7200), current_block]`. -/
def get_block_number_24h_ago (ts : Int → Int) (current_block : Int) : Int :=
  let current_time := ts current_block
  let target_time := current_time - 86400
  searchLoop ts target_time (max 0 (current_block - 7200)) current_block

/-! ### The /analyze request handler (main.py) -/

/-- The slice of `fetch_address_data` output the handler branches on. -/
structure AddressData where
  dtype : String
  deriving Repr, DecidableEq

/-- Outcome of awaiting a Python call: a value, or a raised exception. -/
inductive PyOutcome (α : Type) where
  | ok (a : α)
  | exn (msg : String)
  deriving Repr

/-- Handler reply: the `type` field of the JSON content and the HTTP
status code. -/
structure HandlerResult where
  rtype : String
  status_code : Int
  deriving Repr, DecidableEq

/-- The `try` body of the `/analyze` handler (main.py lines 89-163),
before the top-level `except`: validation, the fetch, the
error-passthrough check, then the pipeline call.  The second
component records whether `fetch_address_data` was invoked.  An
un-caught exception from fetch or pipeline escapes the body as
`PyOutcome.exn`. -/
def analyze_handler_body (valid : Bool) (fetch : PyOutcome AddressData)
    (pipeline : PyOutcome (ℚ × String × List String)) :
    PyOutcome HandlerResult × Bool :=
  if valid = false then (.ok ⟨"Error", 400⟩, false)
  else
    match fetch with
    | .exn m => (.exn m, true)
    | .ok address_data =>
      if address_data.dtype = "Error" then (.ok ⟨"Error", 500⟩, true)
      else
        match pipeline with
        | .exn m => (.exn m, true)
        | .ok _res => (.ok ⟨address_data.dtype, 200⟩, true)

/-- The full `/analyze` handler: the body wrapped in the top-level
`except Exception` which converts any escaped exception into an
Error-typed 500 response. -/
def analyze_handler (valid : Bool) (fetch : PyOutcome AddressData)
    (pipeline : PyOutcome (ℚ × String × List String)) :
    HandlerResult × Bool :=
  match analyze_handler_body valid fetch pipeline with
  | (.ok r, attempted) => (r, attempted)
  | (.exn _, attempted) => (⟨"Error", 500⟩, attempted)

/-! ### Helper lemmas -/

lemma dictLookup_combo_nonneg (p : String × String) (m : ℚ)
    (h : dictLookup risk_combinations p = some m) : 0 ≤ m := by
  simp only [risk_combinations, dictLookup] at h
  repeat' split at h
  all_goals simp_all
  all_goals (rw [← h]; norm_num)

lemma riskFactors_snd_nonneg (f : FeatureSet) :
    ∀ p ∈ riskFactorsOf f, (0:ℚ) ≤ p.2 := by
  intro p hp
  simp only [riskFactorsOf, List.mem_append] at hp
  rcases hp with ((((hp | hp) | hp) | hp) | hp) | hp <;>
    (split at hp <;> simp only [List.mem_singleton, List.not_mem_nil] at hp) <;>
    (subst hp; norm_num +decide [weightOf, dictLookup, risk_weights])

lemma foldl_add_snd (l : List (String × ℚ)) (init : ℚ) :
    l.foldl (fun s p => s + p.2) init = init + (l.map Prod.snd).sum := by
  induction l generalizing init with
  | nil => simp
  | cons a t ih => simp [ih]; ring

lemma baseScore_nonneg (f : FeatureSet) : 0 ≤ baseScore (riskFactorsOf f) := by
  unfold baseScore
  rw [foldl_add_snd, zero_add]
  refine List.sum_nonneg ?_
  intro x hx
  simp only [List.mem_map] at hx
  obtain ⟨p, hp, rfl⟩ := hx
  exact riskFactors_snd_nonneg f p hp

lemma comboInner_fst_nonneg (factor1 : String) (rest : List (String × ℚ))
    (score : ℚ) (applied : List (String × String)) (h : 0 ≤ score) :
    0 ≤ (comboInner factor1 rest score applied).1 := by
  induction rest generalizing score applied with
  | nil => simpa [comboInner]
  | cons a rs ih =>
    obtain ⟨factor2, w⟩ := a
    simp only [comboInner]
    cases hl : dictLookup risk_combinations (sortedPair factor1 factor2) with
    | none => exact ih _ _ h
    | some mult =>
      by_cases hmem : sortedPair factor1 factor2 ∈ applied
      · simp only [if_pos hmem]
        exact ih _ _ h
      · simp only [if_neg hmem]
        exact ih _ _ (mul_nonneg h (dictLookup_combo_nonneg _ _ hl))

lemma comboPass_fst_nonneg (factors : List (String × ℚ))
    (score : ℚ) (applied : List (String × String)) (h : 0 ≤ score) :
    0 ≤ (comboPass factors score applied).1 := by
  induction factors generalizing score applied with
  | nil => simpa [comboPass]
  | cons a rest ih =>
    obtain ⟨f1, w⟩ := a
    simp only [comboPass]
    exact ih _ _ (comboInner_fst_nonneg f1 rest score applied h)

lemma analyzeScore_nonneg (f : FeatureSet) : 0 ≤ analyzeScore f := by
  unfold analyzeScore
  split
  · exact le_min (by norm_num) (comboPass_fst_nonneg _ _ _ (baseScore_nonneg f))
  · exact le_refl 0

lemma analyzeScore_le_one (f : FeatureSet) : analyzeScore f ≤ 1 := by
  unfold analyzeScore
  split
  · exact min_le_left _ _
  · norm_num

lemma searchLoop_finds (ts : Int → Int) (target : Int)
    (hmono : ∀ i j : Int, i ≤ j → ts i ≤ ts j) :
    ∀ (l r : Int), ∀ b : Int, l ≤ b → b ≤ r → |ts b - target| < 300 →
    l ≤ searchLoop ts target l r ∧ searchLoop ts target l r ≤ r ∧
      |ts (searchLoop ts target l r) - target| < 300 := by
  intro l r
  induction l, r using searchLoop.induct ts target with
  | case1 l r hlr mid bt htol =>
    intro b hlb hbr hb
    rw [searchLoop, dif_pos hlr]
    simp only [if_pos htol]
    have hmid : mid = (l + r) / 2 := rfl
    refine ⟨by omega, by omega, htol⟩
  | case2 l r hlr mid bt htol hlt ih =>
    intro b hlb hbr hb
    have hmid : mid = (l + r) / 2 := rfl
    have hbt : bt = ts mid := rfl
    have hbmid : mid < b := by
      by_contra hc
      push_neg at hc
      have h1 : ts b ≤ ts mid := hmono b mid hc
      rw [hbt] at htol hlt
      rw [abs_lt] at htol hb
      omega
    rw [searchLoop, dif_pos hlr]
    simp only [← hmid, ← hbt, if_neg htol, if_pos hlt]
    have h2 := ih b (by omega) hbr hb
    exact ⟨by omega, h2.2.1, h2.2.2⟩
  | case3 l r hlr mid bt htol hge ih =>
    intro b hlb hbr hb
    have hmid : mid = (l + r) / 2 := rfl
    have hbt : bt = ts mid := rfl
    have hbmid : b < mid := by
      by_contra hc
      push_neg at hc
      have h1 : ts mid ≤ ts b := hmono mid b hc
      rw [hbt] at htol hge
      rw [abs_lt] at htol hb
      omega
    rw [searchLoop, dif_pos hlr]
    simp only [← hmid, ← hbt, if_neg htol, if_neg hge]
    have h2 := ih b hlb (by omega) hb
    exact ⟨h2.1, by omega, h2.2.2⟩
  | case4 l r hlr =>
    intro b hlb hbr hb
    omega
lemma searchLoop_lower_bound (ts : Int → Int) (target : Int)
    (hmono : ∀ i j : Int, i ≤ j → ts i ≤ ts j) :
    ∀ (l r : Int), l ≤ r + 1 →
    (∀ b : Int, l ≤ b → b ≤ r → ¬ |ts b - target| < 300) →
    l ≤ searchLoop ts target l r ∧ searchLoop ts target l r ≤ r + 1 ∧
      (∀ i : Int, l ≤ i → i < searchLoop ts target l r → ts i < target) ∧
      (∀ i : Int, searchLoop ts target l r ≤ i → i ≤ r → target ≤ ts i) := by
  intro l r
  induction l, r using searchLoop.induct ts target with
  | case1 l r hlr mid bt htol =>
    intro hlr1 hnot
    have hmid : mid = (l + r) / 2 := rfl
    have hbt : bt = ts mid := rfl
    exact absurd htol (hnot mid (by omega) (by omega))
  | case2 l r hlr mid bt htol hlt ih =>
    intro hlr1 hnot
    have hmid : mid = (l + r) / 2 := rfl
    have hbt : bt = ts mid := rfl
    rw [searchLoop, dif_pos hlr]
    simp only [← hmid, ← hbt, if_neg htol, if_pos hlt]
    have hrec := ih (by omega) (fun b hb1 hb2 => hnot b (by omega) hb2)
    refine ⟨by omega, hrec.2.1, ?_, hrec.2.2.2⟩
    intro i hi1 hi2
    by_cases hcase : mid + 1 ≤ i
    · exact hrec.2.2.1 i hcase hi2
    · have h1 : ts i ≤ ts mid := hmono i mid (by omega)
      rw [hbt] at hlt
      omega
  | case3 l r hlr mid bt htol hge ih =>
    intro hlr1 hnot
    have hmid : mid = (l + r) / 2 := rfl
    have hbt : bt = ts mid := rfl
    rw [searchLoop, dif_pos hlr]
    simp only [← hmid, ← hbt, if_neg htol, if_neg hge]
    have hrec := ih (by omega) (fun b hb1 hb2 => hnot b hb1 (by omega))
    refine ⟨hrec.1, by omega, hrec.2.2.1, ?_⟩
    intro i hi1 hi2
    by_cases hcase : i ≤ mid - 1
    · exact hrec.2.2.2 i hi1 hcase
    · have h1 : ts mid ≤ ts i := hmono mid i (by omega)
      rw [hbt] at hge
      omega
  | case4 l r hlr =>
    intro hlr1 hnot
    rw [searchLoop, dif_neg hlr]
    refine ⟨le_refl l, by omega, ?_, ?_⟩
    · intro i hi1 hi2
      omega
    · intro i hi1 hi2
      omega

/-! ### Claim theorems -/

/-- Claim C1, amended: the aggregation-layer score of
`fetch_address_data` always lies in [0, 0.99], but the score returned
by `RiskDetectionPipeline.analyze_address` is only clamped by
`min(1.0, score)`: it lies in [0, 1] and a score of exactly 1.0 can be
emitted (see the counterexample theorem). -/
theorem c1_score_bounds_amended :
    (∀ f : FeatureSet, 0 ≤ analyzeScore f ∧ analyzeScore f ≤ 1) ∧
    (∀ (f : FeatureSet) (is_token : Bool),
      0 ≤ aggRiskScore f is_token ∧ aggRiskScore f is_token ≤ 99/100) := by
  constructor
  · exact fun f => ⟨analyzeScore_nonneg f, analyzeScore_le_one f⟩
  · intro f t
    simp only [aggRiskScore]
    refine ⟨le_min ?_ (by norm_num), min_le_right _ _⟩
    split_ifs <;> norm_num

/-- Claim C1 is false as stated: the unverified + unlocked-liquidity +
honeypot + 2-days-old contract features make
`RiskDetectionPipeline.analyze_address` return a risk score of exactly
1.0, which is not in [0, 0.99]. -/
theorem c1_clamp_counterexample :
    analyzeScore ⟨true, false, false, 0, false, true, 2⟩ = 1 ∧
    ¬ (analyzeScore ⟨true, false, false, 0, false, true, 2⟩ ≤ 99/100) := by
  constructor <;>
    norm_num +decide [analyzeScore, riskFactorsOf, baseScore, comboPass,
      comboInner, sortedPair, weightOf, dictLookup, risk_weights,
      risk_combinations]

/-- Claim C2 exhibits a code bug: for features whose detected factors
are exactly unlocked liquidity and honeypot, the combination table
contains the key pair (unlocked_liquidity, honeypot_result) with
multiplier 1.3, yet no multiplier is applied: the detected factor is
named honeypot_detected while the table key says honeypot_result, and
the table key is not in sorted order, so the sorted-pair lookup of the
second pass misses it.  The final score is the bare sum 0.75 instead
of 0.75 times 1.3. -/
theorem c2_honeypot_combo_never_applied :
    (("unlocked_liquidity", "honeypot_result"), (13:ℚ)/10) ∈ risk_combinations ∧
    analyzeRiskFactors ⟨true, true, false, 0, false, true, 365⟩ =
      [("unlocked_liquidity", 3/10), ("honeypot_detected", 9/20)] ∧
    appliedCombinations ⟨true, true, false, 0, false, true, 365⟩ = [] ∧
    analyzeScore ⟨true, true, false, 0, false, true, 365⟩ = 3/4 ∧
    analyzeScore ⟨true, true, false, 0, false, true, 365⟩ ≠ (3/4) * (13/10) := by
  refine ⟨by norm_num [risk_combinations], ?_, ?_, ?_, ?_⟩ <;>
    norm_num +decide [analyzeRiskFactors, appliedCombinations, analyzeScore,
      riskFactorsOf, baseScore, comboPass, comboInner, sortedPair, weightOf,
      dictLookup, risk_weights, risk_combinations]

/-- Claim C5: a non-contract (wallet) input always gets score exactly
0.0, tier Safe, an empty risk-factor list, and an explanation stating
that no significant risk factors were detected. -/
theorem c5_non_contract_safe (f : FeatureSet) (features_text : String)
    (h : f.is_contract = false) :
    (analyze_address f features_text).1 = 0 ∧
    (analyze_address f features_text).2.1 = "Safe" ∧
    analyzeRiskFactors f = [] ∧
    "No significant risk factors were detected." ∈
      (analyze_address f features_text).2.2 := by
  refine ⟨?_, ?_, ?_, ?_⟩ <;>
    norm_num [analyze_address, analyzeScore, analyzeRiskFactors, h,
      get_risk_tier, generate_explanation]

/-- Closed witness for the non-contract claim at a concrete wallet
feature set. -/
theorem c5_non_contract_safe_witness :
    (analyze_address ⟨false, false, false, 0, false, false, 0⟩ "w").1 = 0 ∧
    (analyze_address ⟨false, false, false, 0, false, false, 0⟩ "w").2.1 = "Safe" ∧
    analyzeRiskFactors ⟨false, false, false, 0, false, false, 0⟩ = [] ∧
    "No significant risk factors were detected." ∈
      (analyze_address ⟨false, false, false, 0, false, false, 0⟩ "w").2.2 :=
  c5_non_contract_safe ⟨false, false, false, 0, false, false, 0⟩ "w" rfl

/-- Claim C3: a contract that is unverified, honeypot-flagged, with
unlocked liquidity and 2 days of age, no other factor condition
triggered, scores strictly above 0.70, gets the High Risk tier, and
its explanation contains a line beginning with the extreme-caution
recommendation. -/
theorem c3_high_risk_scenario (f : FeatureSet) (features_text : String)
    (h1 : f.is_contract = true) (h2 : f.verified_contract = false)
    (h3 : f.has_mint_privileges = false) (h4 : f.mint_event_count ≤ 10)
    (h5 : f.lp_locked = false) (h6 : f.honeypot_result = true)
    (h7 : f.contract_age_days = 2) :
    7/10 < (analyze_address f features_text).1 ∧
    (analyze_address f features_text).2.1 = "High Risk" ∧
    ∃ line ∈ (analyze_address f features_text).2.2,
      ∃ rest, line = "Recommendation: Exercise extreme caution" ++ rest := by
  obtain ⟨ic, vc, mp, mc, lp, hp, age⟩ := f
  simp only at h1 h2 h3 h4 h5 h6 h7
  subst h1 h2 h3 h5 h6 h7
  have hmc : ¬ ((mc : Int) > 10) := by omega
  have hfac : riskFactorsOf ⟨true, false, false, mc, false, true, 2⟩ =
      [("unverified_contract", 35/100), ("unlocked_liquidity", 30/100),
       ("honeypot_detected", 45/100), ("new_contract", 20/100)] := by
    norm_num +decide [riskFactorsOf, hmc, weightOf, dictLookup, risk_weights]
  have hsc : analyzeScore ⟨true, false, false, mc, false, true, 2⟩ = 1 := by
    unfold analyzeScore
    rw [hfac]
    norm_num +decide [comboPass, comboInner, baseScore, sortedPair,
      dictLookup, risk_combinations]
  have harf : analyzeRiskFactors ⟨true, false, false, mc, false, true, 2⟩ =
      [("unverified_contract", 35/100), ("unlocked_liquidity", 30/100),
       ("honeypot_detected", 45/100), ("new_contract", 20/100)] := by
    simp [analyzeRiskFactors, hfac]
  have htier : get_risk_tier 1 = "High Risk" := by norm_num [get_risk_tier]
  refine ⟨?_, ?_, ?_⟩
  · simp only [analyze_address, hsc]
    norm_num
  · simp only [analyze_address, hsc, htier]
  · simp only [analyze_address, hsc, htier, harf]
    refine ⟨"Recommendation: Exercise extreme caution when interacting with this address. Consider avoiding transactions unless you fully understand the risks.",
      ?_, " when interacting with this address. Consider avoiding transactions unless you fully understand the risks.", rfl⟩
    simp [generate_explanation, comboBullets, comboBulletsInner, sortedPair,
      dictLookup, risk_combinations]

/-- Closed witness for the high-risk scenario at concrete features. -/
theorem c3_high_risk_scenario_witness :
    7/10 < (analyze_address ⟨true, false, false, 0, false, true, 2⟩ "t").1 ∧
    (analyze_address ⟨true, false, false, 0, false, true, 2⟩ "t").2.1 = "High Risk" ∧
    ∃ line ∈ (analyze_address ⟨true, false, false, 0, false, true, 2⟩ "t").2.2,
      ∃ rest, line = "Recommendation: Exercise extreme caution" ++ rest :=
  c3_high_risk_scenario ⟨true, false, false, 0, false, true, 2⟩ "t"
    rfl rfl rfl (by norm_num) rfl rfl rfl

/-- Claim C6: starting from an all-clear contract baseline, which
scores 0, enabling any single risk-factor condition never decreases
the score of `analyze_address`. -/
theorem c6_single_factor_monotone (f : FeatureSet) (n d : Int)
    (h1 : f.is_contract = true) (h2 : f.verified_contract = true)
    (h3 : f.has_mint_privileges = false) (h4 : f.mint_event_count ≤ 10)
    (h5 : f.lp_locked = true) (h6 : f.honeypot_result = false)
    (h7 : 7 ≤ f.contract_age_days) (hn : 10 < n) (hd : d < 7) :
    analyzeScore f = 0 ∧
    analyzeScore f ≤ analyzeScore { f with verified_contract := false } ∧
    analyzeScore f ≤ analyzeScore { f with has_mint_privileges := true } ∧
    analyzeScore f ≤ analyzeScore { f with mint_event_count := n } ∧
    analyzeScore f ≤ analyzeScore { f with lp_locked := false } ∧
    analyzeScore f ≤ analyzeScore { f with honeypot_result := true } ∧
    analyzeScore f ≤ analyzeScore { f with contract_age_days := d } := by
  obtain ⟨ic, vc, mp, mc, lp, hp, age⟩ := f
  simp only at h1 h2 h3 h4 h5 h6 h7
  subst h1 h2 h3 h5 h6
  have hmc : ¬ ((mc : Int) > 10) := by omega
  have hage : ¬ ((age : Int) < 7) := by omega
  have hbase : analyzeScore ⟨true, true, false, mc, true, false, age⟩ = 0 := by
    have hfac : riskFactorsOf ⟨true, true, false, mc, true, false, age⟩ = [] := by
      simp [riskFactorsOf, hmc, hage]
    unfold analyzeScore
    rw [hfac]
    norm_num [comboPass, baseScore]
  refine ⟨hbase, ?_, ?_, ?_, ?_, ?_, ?_⟩ <;>
    (rw [hbase]; exact analyzeScore_nonneg _)

/-- Closed witness for the monotonicity claim at a concrete all-clear
baseline, with the mint count toggled to 11 and the age to 0. -/
theorem c6_single_factor_monotone_witness :
    analyzeScore ⟨true, true, false, 0, true, false, 365⟩ = 0 ∧
    analyzeScore ⟨true, true, false, 0, true, false, 365⟩ ≤
      analyzeScore ⟨true, false, false, 0, true, false, 365⟩ ∧
    analyzeScore ⟨true, true, false, 0, true, false, 365⟩ ≤
      analyzeScore ⟨true, true, true, 0, true, false, 365⟩ ∧
    analyzeScore ⟨true, true, false, 0, true, false, 365⟩ ≤
      analyzeScore ⟨true, true, false, 11, true, false, 365⟩ ∧
    analyzeScore ⟨true, true, false, 0, true, false, 365⟩ ≤
      analyzeScore ⟨true, true, false, 0, false, false, 365⟩ ∧
    analyzeScore ⟨true, true, false, 0, true, false, 365⟩ ≤
      analyzeScore ⟨true, true, false, 0, true, true, 365⟩ ∧
    analyzeScore ⟨true, true, false, 0, true, false, 365⟩ ≤
      analyzeScore ⟨true, true, false, 0, true, false, 0⟩ :=
  c6_single_factor_monotone ⟨true, true, false, 0, true, false, 365⟩ 11 0
    rfl rfl rfl (by norm_num) rfl rfl (by norm_num) (by norm_num) (by norm_num)

/-- Claim C4 is false as stated: the decimal-adjustment exponent of
the spec formula is tokenDecimals - referenceDecimals, while the
source computes 10 to the power 18 - token_decimals.  At indicator
2^96 and 6 token decimals the source price is 10^12, the spec formula
gives 10^-12. -/
theorem c4_price_exponent_counterexample :
    v3_effective_price (2^96) 6 = 10^12 ∧
    v3_price_spec_formula (2^96) 6 18 = 1/10^12 ∧
    v3_effective_price (2^96) 6 ≠ v3_price_spec_formula (2^96) 6 18 := by
  norm_num [v3_effective_price, v3_price_spec_formula]

/-- Claim C4, amended: the effective price of a concentrated-liquidity
pool equals indicator squared times 10 to the power referenceDecimals
minus tokenDecimals, divided by 2^192, with referenceDecimals 18 for
the WETH reference asset. -/
theorem c4_price_formula_amended (indicator token_decimals : Int) :
    v3_effective_price indicator token_decimals =
      v3_price_corrected_formula indicator token_decimals 18 := by
  unfold v3_effective_price v3_price_corrected_formula
  ring

/-- Claim C7 is false as stated: a transport timeout in
fetch_transactions produces the same value as a successful fetch of an
empty transaction list, a non-200 status yields the empty list even
when the body holds transactions, and a timeout in
fetch_contract_data produces the same value as a successful no-data
reply, so no distinguishable failure value is signaled. -/
theorem c7_fetch_failure_counterexample :
    fetch_transactions .timeout =
      fetch_transactions (.resp 200 (.ok ⟨"1", []⟩)) ∧
    fetch_transactions (.resp 500 (.ok ⟨"1", [⟨"t"⟩]⟩)) = [] ∧
    fetch_contract_data .timeout =
      fetch_contract_data (.resp 200 (.ok ⟨"0", []⟩)) := by
  refine ⟨by decide, by decide, by decide⟩

/-- Claim C7, amended: every transport failure (timeout, non-200
status, malformed body) is swallowed: fetch_transactions returns the
empty list, indistinguishable from a successful empty result, and
fetch_contract_data returns None. -/
theorem c7_failures_swallowed (rt : HttpFetch TxListBody)
    (rc : HttpFetch ContractSourceBody)
    (ht : transportFailed rt = true) (hc : transportFailed rc = true) :
    fetch_transactions rt = [] ∧ fetch_contract_data rc = none := by
  constructor
  · cases rt with
    | timeout => rfl
    | resp st body =>
      cases body with
      | error e => simp [fetch_transactions]
      | ok data =>
        simp only [transportFailed, Bool.or_false, bne_iff_ne, ne_eq] at ht
        simp [fetch_transactions, ht]
  · cases rc with
    | timeout => rfl
    | resp st body =>
      cases body with
      | error e => simp [fetch_contract_data]
      | ok data =>
        simp only [transportFailed, Bool.or_false, bne_iff_ne, ne_eq] at hc
        simp [fetch_contract_data, hc]

/-- Closed witness for the swallowed-failure claim at timeouts. -/
theorem c7_failures_swallowed_witness :
    fetch_transactions (.timeout : HttpFetch TxListBody) = [] ∧
    fetch_contract_data (.timeout : HttpFetch ContractSourceBody) = none :=
  c7_failures_swallowed .timeout .timeout rfl rfl

/-- Claim C8: a syntactically invalid address is rejected with an
Error-typed 400 response before the fetch is attempted, and any
exception escaping the handler body is converted by the top-level
catch into an Error-typed 500 response instead of propagating. -/
theorem c8_handler_error_paths (valid : Bool) (fetch : PyOutcome AddressData)
    (pipeline : PyOutcome (ℚ × String × List String)) :
    (valid = false →
      analyze_handler valid fetch pipeline = (⟨"Error", 400⟩, false)) ∧
    (∀ m b, analyze_handler_body valid fetch pipeline = (.exn m, b) →
      (analyze_handler valid fetch pipeline).1 = ⟨"Error", 500⟩) := by
  constructor
  · intro hv
    subst hv
    simp [analyze_handler, analyze_handler_body]
  · intro m b hbody
    simp [analyze_handler, hbody]

/-- Closed witness for the handler claim: an invalid request, and a
fetch that raises. -/
theorem c8_handler_error_paths_witness :
    analyze_handler false (.ok ⟨"Contract"⟩) (.exn "boom") =
      (⟨"Error", 400⟩, false) ∧
    (analyze_handler true (.exn "down") (.ok (0, "Safe", []))).1 =
      ⟨"Error", 500⟩ :=
  ⟨(c8_handler_error_paths false (.ok ⟨"Contract"⟩) (.exn "boom")).1 rfl,
   (c8_handler_error_paths true (.exn "down") (.ok (0, "Safe", []))).2
     "down" true rfl⟩

/-- Claim C10: when no token metadata is found the liquidity-lock
check is not performed (the features are independent of its would-be
result), the built FeatureSet has lp_locked false, and the scoring
engine therefore detects the unlocked_liquidity factor with weight
0.30 for every non-token contract. -/
theorem c10_non_token_lp_unlocked (contract_age : Option AgeInfo)
    (contract_info : Option ContractInfo) (mint_info : Option MintInfo)
    (honeypot : Bool) (lock1 lock2 : LockInfo) :
    lockCheckPerformed none = false ∧
    contractFeatures contract_age contract_info none mint_info honeypot lock1 =
      contractFeatures contract_age contract_info none mint_info honeypot lock2 ∧
    (contractFeatures contract_age contract_info none mint_info honeypot
      lock1).lp_locked = false ∧
    ("unlocked_liquidity", (30:ℚ)/100) ∈
      riskFactorsOf (contractFeatures contract_age contract_info none
        mint_info honeypot lock1) := by
  refine ⟨rfl, rfl, rfl, ?_⟩
  norm_num +decide [riskFactorsOf, contractFeatures, lockCheckPerformed,
    List.mem_append, weightOf, dictLookup, risk_weights]

/-- Claim C9: with every block fetch succeeding and monotone block
timestamps, the search runs over [max(0, latest - 7200), latest]
against target latest-timestamp minus 86400; whenever a block within
the 300-second tolerance exists in that range, the returned block is
in range and within tolerance; when no in-range block is within
tolerance, the bounds cross and the final lower bound is returned:
the least block of the range whose timestamp has reached the target
(range upper end plus one when none has). -/
theorem c9_block_search (ts : Int → Int) (current_block : Int)
    (hmono : ∀ i j : Int, i ≤ j → ts i ≤ ts j) (hcur : 0 ≤ current_block) :
    ((∃ b : Int, max 0 (current_block - 7200) ≤ b ∧ b ≤ current_block ∧
        |ts b - (ts current_block - 86400)| < 300) →
      max 0 (current_block - 7200) ≤ get_block_number_24h_ago ts current_block ∧
      get_block_number_24h_ago ts current_block ≤ current_block ∧
      |ts (get_block_number_24h_ago ts current_block) -
        (ts current_block - 86400)| < 300) ∧
    ((∀ b : Int, max 0 (current_block - 7200) ≤ b → b ≤ current_block →
        ¬ |ts b - (ts current_block - 86400)| < 300) →
      max 0 (current_block - 7200) ≤ get_block_number_24h_ago ts current_block ∧
      get_block_number_24h_ago ts current_block ≤ current_block + 1 ∧
      (∀ i : Int, max 0 (current_block - 7200) ≤ i →
        i < get_block_number_24h_ago ts current_block →
        ts i < ts current_block - 86400) ∧
      (∀ i : Int, get_block_number_24h_ago ts current_block ≤ i →
        i ≤ current_block → ts current_block - 86400 ≤ ts i)) := by
  constructor
  · rintro ⟨b, hb1, hb2, hb3⟩
    unfold get_block_number_24h_ago
    exact searchLoop_finds ts _ hmono _ _ b hb1 hb2 hb3
  · intro hnone
    unfold get_block_number_24h_ago
    exact searchLoop_lower_bound ts _ hmono _ _ (by omega) hnone

/-- Closed witness for the block-search claim on the synthetic chain
with one block every 12 seconds and latest block 14400: block 7200
lies exactly at the 24-hour target, so the search returns an in-range
block within tolerance. -/
theorem c9_block_search_witness :
    max 0 (14400 - 7200) ≤ get_block_number_24h_ago (fun i => 12 * i) 14400 ∧
    get_block_number_24h_ago (fun i => 12 * i) 14400 ≤ 14400 ∧
    |12 * get_block_number_24h_ago (fun i => 12 * i) 14400 -
      (12 * 14400 - 86400)| < 300 :=
  (c9_block_search (fun i => 12 * i) 14400
      (fun i j h => by simp only []; omega) (by norm_num)).1
    ⟨7200, by norm_num⟩

end Ethyr
